import Mathlib

/-!
Verification of the amplify-datastore example application.

The repository consists of a single React component (src/App.js), a generated
model declaration for the `Post` entity with its `PostStatus` enum, and a README.
The component keeps a local form state `{ title, rating }`, issues calls to the
external DataStore collaborator (query / save), and resets the form after a
successful create.  We embed the component as pure functions over an explicit
form-state type, and each handler as a function producing the ordered trace of
DataStore calls it issues together with the resulting local state.

JavaScript dynamic values matter here: the rating field of the form starts as
the empty string, and every change event replaces it by `parseInt` of the typed
text, which is an integer or NaN.  We model exactly those values.
-/

namespace AmplifyDataStoreExample

/-- The generated `PostStatus` enum: `ACTIVE = "ACTIVE"`, `INACTIVE = "INACTIVE"`. -/
inductive PostStatus where
  | ACTIVE
  | INACTIVE
deriving DecidableEq, Repr

/-- A JavaScript value as it can occur in the form's rating field or a Post field:
a string (the initial and reset value is the empty string), an integer, or NaN
(the result of `parseInt` on non-numeric text). -/
inductive JSValue where
  | str (s : String)
  | int (n : Int)
  | nan
deriving DecidableEq, Repr

/-- Value of a character as a digit in the given radix, when it is one
(`parseInt` accepts `0-9` and letters up to the radix). -/
def digitVal (c : Char) (radix : Nat) : Option Nat :=
  let v : Option Nat :=
    if c.isDigit then some (c.toNat - 48)
    else if 97 ≤ c.toLower.toNat ∧ c.toLower.toNat ≤ 122 then some (c.toLower.toNat - 87)
    else none
  match v with
  | some n => if n < radix then some n else none
  | none => none

/-- Accumulate leading digits in the given radix; `none` when no digit has been
seen yet (then the overall parse is NaN). Parsing stops at the first non-digit,
as `parseInt` does. -/
def parseDigits (radix : Nat) : List Char → Option Nat → Option Nat
  | [], acc => acc
  | c :: cs, acc =>
    match digitVal c radix with
    | some d => parseDigits radix cs (some ((acc.getD 0) * radix + d))
    | none => acc

/-- Whitespace skipped by `parseInt` before the number. -/
def isJSWhitespace (c : Char) : Bool :=
  c = ' ' ∨ c = '\t' ∨ c = '\n' ∨ c = '\r'

/-- JavaScript `parseInt(s)` with no radix argument, as used in the rating
input's change handler: skip leading whitespace, read an optional sign, switch
to radix 16 after a `0x`/`0X` prefix, then read leading digits; NaN when no
digit is read. -/
def parseIntJS (s : String) : JSValue :=
  let cs := s.toList.dropWhile isJSWhitespace
  let sign : Int := match cs with
    | '-' :: _ => -1
    | _ => 1
  let cs1 := match cs with
    | '-' :: rest => rest
    | '+' :: rest => rest
    | _ => cs
  let radix : Nat := match cs1 with
    | '0' :: 'x' :: _ => 16
    | '0' :: 'X' :: _ => 16
    | _ => 10
  let cs2 := match cs1 with
    | '0' :: 'x' :: rest => rest
    | '0' :: 'X' :: rest => rest
    | _ => cs1
  match parseDigits radix cs2 none with
  | some n => JSValue.int (sign * (n : Int))
  | none => JSValue.nan

/-- The component's local form state, `useState({ title: '', rating: '' })`. -/
structure FormState where
  title : String
  rating : JSValue
deriving DecidableEq, Repr

/-- The initial (and reset) form state `{ title: '', rating: '' }`. -/
def initialForm : FormState := { title := "", rating := JSValue.str "" }

/-- Change handler of the title input:
`e => updateForm({ ...form, 'title': e.target.value })`. -/
def onTitleChange (form : FormState) (value : String) : FormState :=
  { form with title := value }

/-- Change handler of the rating input:
`e => updateForm({ ...form, 'rating': parseInt(e.target.value) })`. -/
def onRatingChange (form : FormState) (value : String) : FormState :=
  { form with rating := parseIntJS value }

/-- The object handed to `DataStore.save` in the create handler:
`{...form, status: PostStatus.INACTIVE}` spread into a new `Post`. -/
structure PostData where
  title : String
  rating : JSValue
  status : PostStatus
deriving DecidableEq, Repr

/-- `const postData = {...form, status: PostStatus.INACTIVE}`. -/
def createPostData (form : FormState) : PostData :=
  { title := form.title, rating := form.rating, status := PostStatus.INACTIVE }

/-- One call to the external DataStore collaborator. -/
inductive DSCall where
  | queryAll
  | queryById (id : String)
  | save (data : PostData)
  | deleteCall (id : String)
deriving DecidableEq, Repr

def isSaveCall : DSCall → Bool
  | DSCall.save _ => true
  | _ => false

def isDeleteCall : DSCall → Bool
  | DSCall.deleteCall _ => true
  | _ => false

/-- The identifier hard-coded in the query handler. -/
def hardcodedId : String := "4d5a08f3-d0ac-42bd-a19e-170991a4d79b"

/-- Ordered trace of the DataStore calls of one invocation of the component's
`query` function: `await DataStore.query(Post)` runs to completion first, then
`await DataStore.query(Post, "4d5a08f3-...")` is issued (the two awaits are
sequential statements of the function body). -/
def queryCalls : List DSCall := [DSCall.queryAll, DSCall.queryById hardcodedId]

/-- `useEffect(() => { query() }, [])` runs the effect exactly once on mount, so
the mount-time trace is one invocation of `query`. -/
def mountCalls : List DSCall := queryCalls

/-- Result of one invocation of the create handler: the ordered trace of
DataStore calls, the resulting local form state, and whether the handler ended
in a propagated rejection. -/
structure CreateOutcome where
  calls : List DSCall
  finalForm : FormState
  rejected : Bool
deriving DecidableEq, Repr

/-- The create handler: build `postData` from the form with status INACTIVE,
`await DataStore.save(new Post(postData))`, and only after the save resolves
reset the form to `{ title: '', rating: '' }`.  There is no try/catch: when the
save rejects, the handler stops there (the form keeps its value) and the
rejection propagates out.  `saveSucceeds` tells whether the external save
resolves or rejects. -/
def create (form : FormState) (saveSucceeds : Bool) : CreateOutcome :=
  let data := createPostData form
  if saveSucceeds then
    { calls := [DSCall.save data]
      finalForm := { title := "", rating := JSValue.str "" }
      rejected := false }
  else
    { calls := [DSCall.save data]
      finalForm := form
      rejected := true }

/-- The generated `Post` record: `id`, `title`, `rating`, `status`, all fields
`readonly`.  The rating field holds whatever JavaScript value was supplied at
construction (the declaration says `number`, but the constructor does not
validate, so the component can store the form's string or NaN there). -/
structure Post where
  id : String
  title : String
  rating : JSValue
  status : PostStatus
deriving DecidableEq, Repr

/-- Initial field set for the `Post` constructor (`ModelInit<Post>`): the
identifier may be omitted, in which case one is assigned externally. -/
structure PostInit where
  id : Option String
  title : String
  rating : JSValue
  status : PostStatus
deriving DecidableEq, Repr

/-- Modelled from the spec: the implementation of the generated `Post`
constructor is not in the repository (only its declaration
`constructor(init: ModelInit<Post>)`).  Per the spec, constructing a `Post`
from a field set yields an instance whose fields equal the inputs, with the
identifier assigned by the persistence layer when omitted (`assignedId` is
that externally assigned identifier). -/
def Post.make (assignedId : String) (init : PostInit) : Post :=
  { id := init.id.getD assignedId
    title := init.title
    rating := init.rating
    status := init.status }

/-- One field assignment performed by a `copyOf` mutation function on the
mutable draft (`MutableModel<Post>` exposes title, rating and status; the
identifier is not assignable). -/
inductive Mutation where
  | setTitle (v : String)
  | setRating (v : JSValue)
  | setStatus (v : PostStatus)
deriving DecidableEq, Repr

/-- The mutable draft a `copyOf` mutation function operates on. -/
structure Draft where
  title : String
  rating : JSValue
  status : PostStatus
deriving DecidableEq, Repr

def applyMutation (d : Draft) : Mutation → Draft
  | Mutation.setTitle v => { d with title := v }
  | Mutation.setRating v => { d with rating := v }
  | Mutation.setStatus v => { d with status := v }

/-- Whether the mutation function assigns the title field. -/
def touchesTitle : List Mutation → Bool
  | [] => false
  | Mutation.setTitle _ :: _ => true
  | _ :: ms => touchesTitle ms

/-- Whether the mutation function assigns the rating field. -/
def touchesRating : List Mutation → Bool
  | [] => false
  | Mutation.setRating _ :: _ => true
  | _ :: ms => touchesRating ms

/-- Whether the mutation function assigns the status field. -/
def touchesStatus : List Mutation → Bool
  | [] => false
  | Mutation.setStatus _ :: _ => true
  | _ :: ms => touchesStatus ms

/-- Modelled from the spec: the implementation of the generated `Post.copyOf`
is not in the repository (only its declaration).  Per the spec, it accepts an
existing instance and a mutation function operating on a mutable draft (here
the sequence of field assignments the function performs), and returns a new
immutable instance with the updated fields and the same identifier. -/
def Post.copyOf (source : Post) (mutator : List Mutation) : Post :=
  let d0 : Draft := { title := source.title, rating := source.rating, status := source.status }
  let d := mutator.foldl applyMutation d0
  { id := source.id, title := d.title, rating := d.rating, status := d.status }

/-- The last value the mutation function assigns to the title field, if any. -/
def assignedTitle : List Mutation → Option String
  | [] => none
  | Mutation.setTitle v :: ms => some ((assignedTitle ms).getD v)
  | _ :: ms => assignedTitle ms

/-- The last value the mutation function assigns to the rating field, if any. -/
def assignedRating : List Mutation → Option JSValue
  | [] => none
  | Mutation.setRating v :: ms => some ((assignedRating ms).getD v)
  | _ :: ms => assignedRating ms

/-- The last value the mutation function assigns to the status field, if any. -/
def assignedStatus : List Mutation → Option PostStatus
  | [] => none
  | Mutation.setStatus v :: ms => some ((assignedStatus ms).getD v)
  | _ :: ms => assignedStatus ms

lemma foldl_applyMutation_title (ms : List Mutation) (d : Draft) :
    (ms.foldl applyMutation d).title = (assignedTitle ms).getD d.title := by
  induction ms generalizing d with
  | nil => rfl
  | cons m ms ih =>
    simp only [List.foldl_cons]
    cases m with
    | setTitle v =>
      rw [ih (applyMutation d (Mutation.setTitle v))]
      cases hA : assignedTitle ms <;> simp [applyMutation, assignedTitle, hA]
    | setRating v =>
      rw [ih (applyMutation d (Mutation.setRating v))]
      simp [applyMutation, assignedTitle]
    | setStatus v =>
      rw [ih (applyMutation d (Mutation.setStatus v))]
      simp [applyMutation, assignedTitle]

lemma foldl_applyMutation_rating (ms : List Mutation) (d : Draft) :
    (ms.foldl applyMutation d).rating = (assignedRating ms).getD d.rating := by
  induction ms generalizing d with
  | nil => rfl
  | cons m ms ih =>
    simp only [List.foldl_cons]
    cases m with
    | setTitle v =>
      rw [ih (applyMutation d (Mutation.setTitle v))]
      simp [applyMutation, assignedRating]
    | setRating v =>
      rw [ih (applyMutation d (Mutation.setRating v))]
      cases hA : assignedRating ms <;> simp [applyMutation, assignedRating, hA]
    | setStatus v =>
      rw [ih (applyMutation d (Mutation.setStatus v))]
      simp [applyMutation, assignedRating]

lemma foldl_applyMutation_status (ms : List Mutation) (d : Draft) :
    (ms.foldl applyMutation d).status = (assignedStatus ms).getD d.status := by
  induction ms generalizing d with
  | nil => rfl
  | cons m ms ih =>
    simp only [List.foldl_cons]
    cases m with
    | setTitle v =>
      rw [ih (applyMutation d (Mutation.setTitle v))]
      simp [applyMutation, assignedStatus]
    | setRating v =>
      rw [ih (applyMutation d (Mutation.setRating v))]
      simp [applyMutation, assignedStatus]
    | setStatus v =>
      rw [ih (applyMutation d (Mutation.setStatus v))]
      cases hA : assignedStatus ms <;> simp [applyMutation, assignedStatus, hA]

lemma postStatus_cases (s : PostStatus) : s = PostStatus.ACTIVE ∨ s = PostStatus.INACTIVE := by
  cases s
  · exact Or.inl rfl
  · exact Or.inr rfl

/-- C1: for every local form state, the create handler issues exactly one save
call, carrying an object whose title and rating are the current form fields and
whose status is INACTIVE; when the save succeeds the local form state is reset
to `{ title: "", rating: "" }` with no rejection; in particular with
title="My First Post" and rating=10 the saved object is
{title:"My First Post", rating:10, status:"INACTIVE"}. -/
theorem create_saves_once_and_resets (form : FormState) (b : Bool) :
    (create form b).calls = [DSCall.save (createPostData form)] ∧
    (createPostData form).title = form.title ∧
    (createPostData form).rating = form.rating ∧
    (createPostData form).status = PostStatus.INACTIVE ∧
    (create form true).finalForm = initialForm ∧
    (create form true).rejected = false ∧
    create { title := "My First Post", rating := JSValue.int 10 } true =
      { calls := [DSCall.save
          { title := "My First Post", rating := JSValue.int 10, status := PostStatus.INACTIVE }]
        finalForm := initialForm
        rejected := false } := by
  refine ⟨?_, rfl, rfl, rfl, rfl, rfl, rfl⟩
  cases b <;> rfl

/-- C1 witness: the theorem applied at a concrete form state. -/
theorem create_saves_once_and_resets_witness :
    (create { title := "My First Post", rating := JSValue.int 10 } true).calls =
      [DSCall.save (createPostData { title := "My First Post", rating := JSValue.int 10 })] ∧
    (createPostData { title := "My First Post", rating := JSValue.int 10 }).title = "My First Post" ∧
    (createPostData { title := "My First Post", rating := JSValue.int 10 }).rating = JSValue.int 10 ∧
    (createPostData { title := "My First Post", rating := JSValue.int 10 }).status = PostStatus.INACTIVE ∧
    (create { title := "My First Post", rating := JSValue.int 10 } true).finalForm = initialForm ∧
    (create { title := "My First Post", rating := JSValue.int 10 } true).rejected = false ∧
    create { title := "My First Post", rating := JSValue.int 10 } true =
      { calls := [DSCall.save
          { title := "My First Post", rating := JSValue.int 10, status := PostStatus.INACTIVE }]
        finalForm := initialForm
        rejected := false } :=
  create_saves_once_and_resets { title := "My First Post", rating := JSValue.int 10 } true

/-- C2: mounting the component triggers exactly one query-all call and exactly
one query-by-identifier call for the hard-coded id, and no save and no delete
call is issued automatically on mount. -/
theorem mount_queries_only :
    mountCalls = [DSCall.queryAll, DSCall.queryById hardcodedId] ∧
    mountCalls.count DSCall.queryAll = 1 ∧
    mountCalls.count (DSCall.queryById hardcodedId) = 1 ∧
    mountCalls.filter isSaveCall = [] ∧
    mountCalls.filter isDeleteCall = [] := by
  decide

/-- C3: when the external save rejects during the create handler, the local
form state is left unchanged, the rejection propagates out of the handler, and
still exactly the one save call was issued (no retry or recovery). -/
theorem create_rejection_leaves_form (form : FormState) :
    (create form false).finalForm = form ∧
    (create form false).rejected = true ∧
    (create form false).calls = [DSCall.save (createPostData form)] :=
  ⟨rfl, rfl, rfl⟩

/-- C3 witness: the theorem applied at a concrete form state. -/
theorem create_rejection_leaves_form_witness :
    (create { title := "x", rating := JSValue.int 3 } false).finalForm =
      { title := "x", rating := JSValue.int 3 } ∧
    (create { title := "x", rating := JSValue.int 3 } false).rejected = true ∧
    (create { title := "x", rating := JSValue.int 3 } false).calls =
      [DSCall.save (createPostData { title := "x", rating := JSValue.int 3 })] :=
  create_rejection_leaves_form { title := "x", rating := JSValue.int 3 }

/-- C4: no local validation: for every form state, including an empty title, the
empty-string rating (initial/reset value), or a NaN rating produced by parseInt
on non-numeric input, the create handler passes the form's title and rating to
the saved object unchanged and never alters them. -/
theorem create_no_validation (form : FormState) :
    (createPostData form).title = form.title ∧
    (createPostData form).rating = form.rating ∧
    parseIntJS "abc" = JSValue.nan ∧
    createPostData { title := "", rating := JSValue.str "" } =
      { title := "", rating := JSValue.str "", status := PostStatus.INACTIVE } ∧
    createPostData { title := "", rating := JSValue.nan } =
      { title := "", rating := JSValue.nan, status := PostStatus.INACTIVE } := by
  refine ⟨rfl, rfl, by decide, rfl, rfl⟩

/-- C4 witness: the theorem applied at the empty-string form state. -/
theorem create_no_validation_witness :
    (createPostData { title := "", rating := JSValue.str "" }).title = "" ∧
    (createPostData { title := "", rating := JSValue.str "" }).rating = JSValue.str "" ∧
    parseIntJS "abc" = JSValue.nan ∧
    createPostData { title := "", rating := JSValue.str "" } =
      { title := "", rating := JSValue.str "", status := PostStatus.INACTIVE } ∧
    createPostData { title := "", rating := JSValue.nan } =
      { title := "", rating := JSValue.nan, status := PostStatus.INACTIVE } :=
  create_no_validation { title := "", rating := JSValue.str "" }

/-- A concrete Post used to refute the literal reading of the copyOf claim. -/
def examplePost : Post :=
  { id := "id-1", title := "hello", rating := JSValue.int 1, status := PostStatus.ACTIVE }

/-- C5 counterexample: the claim as stated says exactly the fields assigned by
the mutation function differ from the source; it fails when the mutation
assigns a field its current value: assigning title := "hello" to a post whose
title is already "hello" touches the title yet the copy's title does not
differ. -/
theorem copyOf_exactly_differ_false :
    ¬ (((Post.copyOf examplePost [Mutation.setTitle "hello"]).id = examplePost.id) ∧
       (((Post.copyOf examplePost [Mutation.setTitle "hello"]).title ≠ examplePost.title) ↔
         touchesTitle [Mutation.setTitle "hello"] = true) ∧
       (((Post.copyOf examplePost [Mutation.setTitle "hello"]).rating ≠ examplePost.rating) ↔
         touchesRating [Mutation.setTitle "hello"] = true) ∧
       (((Post.copyOf examplePost [Mutation.setTitle "hello"]).status ≠ examplePost.status) ↔
         touchesStatus [Mutation.setTitle "hello"] = true)) := by
  decide

/-- C5 (amended): copyOf returns an instance with the same id as the source in
which every field assigned by the mutation function holds its last assigned
value and every field it does not assign is unchanged; hence only assigned
fields can differ. -/
theorem copyOf_frame (p : Post) (ms : List Mutation) :
    (Post.copyOf p ms).id = p.id ∧
    (Post.copyOf p ms).title = (assignedTitle ms).getD p.title ∧
    (Post.copyOf p ms).rating = (assignedRating ms).getD p.rating ∧
    (Post.copyOf p ms).status = (assignedStatus ms).getD p.status := by
  refine ⟨rfl, ?_, ?_, ?_⟩
  · exact foldl_applyMutation_title ms _
  · exact foldl_applyMutation_rating ms _
  · exact foldl_applyMutation_status ms _

/-- C6: constructing a Post from a field set yields an instance whose title,
rating and status equal the corresponding inputs, the status being the value
supplied at the call site. -/
theorem post_make_fields (aid : String) (init : PostInit) :
    (Post.make aid init).title = init.title ∧
    (Post.make aid init).rating = init.rating ∧
    (Post.make aid init).status = init.status :=
  ⟨rfl, rfl, rfl⟩

/-- C7: instances are immutable: every repository operation is a pure function
on Post values, a modified version arises only from copyOf with at least one
field assignment in its mutation function, and copyOf always preserves the
identifier. -/
theorem post_immutable_copy_preserves_id (p : Post) (ms : List Mutation) :
    (Post.copyOf p ms).id = p.id ∧ (Post.copyOf p ms ≠ p → ms ≠ []) := by
  refine ⟨rfl, ?_⟩
  intro hne hnil
  apply hne
  subst hnil
  cases p
  rfl

/-- C7 witness: the theorem applied at a concrete post and mutator. -/
theorem post_immutable_copy_preserves_id_witness :
    (Post.copyOf { id := "a", title := "t", rating := JSValue.int 2, status := PostStatus.ACTIVE }
        [Mutation.setStatus PostStatus.INACTIVE]).id =
      (Post.mk "a" "t" (JSValue.int 2) PostStatus.ACTIVE).id ∧
    (Post.copyOf { id := "a", title := "t", rating := JSValue.int 2, status := PostStatus.ACTIVE }
        [Mutation.setStatus PostStatus.INACTIVE] ≠
      Post.mk "a" "t" (JSValue.int 2) PostStatus.ACTIVE →
      [Mutation.setStatus PostStatus.INACTIVE] ≠ ([] : List Mutation)) :=
  post_immutable_copy_preserves_id
    { id := "a", title := "t", rating := JSValue.int 2, status := PostStatus.ACTIVE }
    [Mutation.setStatus PostStatus.INACTIVE]

/-- C8: the status of every Post is one of the two enumerated values ACTIVE and
INACTIVE, and construction, copyOf and the create handler all keep the status
within that set (the create handler always uses INACTIVE). -/
theorem status_enum_invariant (p : Post) (form : FormState) (aid : String)
    (init : PostInit) (ms : List Mutation) :
    (p.status = PostStatus.ACTIVE ∨ p.status = PostStatus.INACTIVE) ∧
    (createPostData form).status = PostStatus.INACTIVE ∧
    ((Post.make aid init).status = PostStatus.ACTIVE ∨
      (Post.make aid init).status = PostStatus.INACTIVE) ∧
    ((Post.copyOf p ms).status = PostStatus.ACTIVE ∨
      (Post.copyOf p ms).status = PostStatus.INACTIVE) :=
  ⟨postStatus_cases _, rfl, postStatus_cases _, postStatus_cases _⟩

/-- C9: within one invocation of the query handler, the query-all call is
issued and awaited before the query-by-identifier call for the hard-coded id;
the trace is exactly query-all followed by query-by-id, never the opposite
order. -/
theorem query_order :
    queryCalls = [DSCall.queryAll, DSCall.queryById hardcodedId] ∧
    queryCalls.indexOf DSCall.queryAll < queryCalls.indexOf (DSCall.queryById hardcodedId) := by
  decide

/-- C10: every title change event updates only the title field (to the typed
text), leaving the rating unchanged, and every rating change event updates only
the rating field (to the integer parse of the typed text), leaving the title
unchanged. -/
theorem onChange_frame (form : FormState) (v : String) :
    (onTitleChange form v).title = v ∧
    (onTitleChange form v).rating = form.rating ∧
    (onRatingChange form v).rating = parseIntJS v ∧
    (onRatingChange form v).title = form.title :=
  ⟨rfl, rfl, rfl, rfl⟩

end AmplifyDataStoreExample
